import Mathlib

/-!
# Verification of the bpdiag core (`bpdiag/bpdiag.py`)

A shallow embedding of the data model and core operations of the *bpdiag*
blood-pressure statistics tool, together with theorems settling the frozen
claims about its specification.

The source is Python 2, which matters in several places:

* `str.split(sep)`, `str.strip()` and `int(str)` are modelled explicitly
  (`pySplit`, `pyStrip`, `pyInt`);
* `filter(None, values)` keeps only *truthy* values, so it drops both `None`
  and `0` (`pyTruthyInts`);
* `/` on integers is *floor* division (`Int.fdiv`);
* exceptions are modelled with `Except`; a `TypeError` raised by calling
  `Measurement` with the wrong number of positional arguments, a `ValueError`
  raised by `int()`, and an `IndexError` raised by indexing are distinguished,
  because `parse_plaintext` classifies failures by catching these types.
-/

/-- Python whitespace as stripped by `str.strip()` (ASCII subset). -/
def pyWhitespace (c : Char) : Bool :=
  c == ' ' || c == '\t' || c == '\n' || c == '\r' || c == '\x0b' || c == '\x0c'

/-- Models Python `s.strip()`. -/
def pyStrip (s : String) : String :=
  String.mk (((s.data.dropWhile pyWhitespace).reverse.dropWhile pyWhitespace).reverse)

/-- Fuel-driven worker for `pySplit`; `cur` is the current chunk, reversed. -/
def splitAux (sep : List Char) : Nat → List Char → List Char → List (List Char)
  | 0, cs, cur => [cur.reverse ++ cs]
  | Nat.succ fuel, cs, cur =>
    if !sep.isEmpty && sep.isPrefixOf cs then
      cur.reverse :: splitAux sep fuel (cs.drop sep.length) []
    else
      match cs with
      | [] => [cur.reverse]
      | c :: rest => splitAux sep fuel rest (c :: cur)

/-- Models Python `s.split(sep)` for a nonempty separator `sep`
(`''.split(',') = ['']`, `'a,,b'.split(',') = ['a','','b']`, …).
Python raises `ValueError` on an empty separator; that case is never
exercised here and the model returns `[s]` instead. -/
def pySplit (sep s : String) : List String :=
  (splitAux sep.data (s.data.length + 1) s.data []).map String.mk

/-- Digit run to a number once the sign is consumed (helper for `pyInt`). -/
def pyIntDigits (ds : List Char) (neg : Bool) : Option Int :=
  if !ds.isEmpty && ds.all Char.isDigit then
    let n : Nat := ds.foldl (fun a c => 10 * a + (c.toNat - 48)) 0
    some (if neg then -(n : Int) else (n : Int))
  else none

/-- Models Python `int(s)` on a string: surrounding whitespace is allowed,
then an optional sign and at least one digit; anything else raises
`ValueError` (modelled as `none`). -/
def pyInt (s : String) : Option Int :=
  match (pyStrip s).data with
  | '-' :: rest => pyIntDigits rest true
  | '+' :: rest => pyIntDigits rest false
  | t => pyIntDigits t false

/-- The `Measurement` value object: the three required integer fields.
The source also stores arbitrary extra keyword attributes (date, time, …);
they never influence parsing decisions or statistics and are omitted. -/
structure Measurement where
  sys : Int
  dia : Int
  pulse : Int
deriving DecidableEq

/-- The exception raised while evaluating `Measurement(*args)`:
`typeError` when the argument count is not three (the call itself fails),
`valueError` when `int()` cannot convert one of the three strings. -/
inductive ArgExc
  | typeError
  | valueError
deriving DecidableEq

/-- Models `Measurement(*args)` for a list of positional string arguments,
as produced by `token.split(separator)` in `parse_plaintext`. -/
def mkMeasurement (args : List String) : Except ArgExc Measurement :=
  match args with
  | [s, d, p] =>
    match pyInt s, pyInt d, pyInt p with
    | some sv, some dv, some pv => .ok { sys := sv, dia := dv, pulse := pv }
    | _, _, _ => .error ArgExc.valueError
  | _ => .error ArgExc.typeError

/-- The `check` argument of the parsers: `True` (strict: report all errors),
`False` (lenient, the default), `None` (silent: ignore all errors). -/
inductive Check
  | strict
  | lenient
  | silent
deriving DecidableEq

/-- The `BpdiagError` exception with the distinct messages raised by the
parsers (payloads mirror the data interpolated into each message). -/
inductive BpdiagError
  | notEnoughMeasurements (needed : Nat) (got : Nat) (line : String)
  | wrongTokenShape (got : Nat) (token : String)
  | cantConvert (parts : List String)
  | jsonDecode
deriving DecidableEq

/-- One iteration of the slot loop of `parse_plaintext` (the `try` block for
index `i` with its three `except` clauses).  `ok (some x)` appends `x` to
`line_data`, `ok none` is `continue` without appending, `error` propagates a
raised `BpdiagError`. -/
def parseSlot (skip separator line : String) (check : Check) (entries : Nat)
    (tokens : List String) (i : Nat) : Except BpdiagError (Option (Option Measurement)) :=
  match tokens.get? i with
  | none =>
    -- IndexError: `tokens[i]` is out of range (only possible when *entries* is set)
    if check ≠ Check.strict ∧ entries ≠ 0 then .ok (some none)
    else if check = Check.silent then .ok none
    else .error (BpdiagError.notEnoughMeasurements entries tokens.length line)
  | some tok =>
    let token := pyStrip tok
    match mkMeasurement (pySplit separator token) with
    | .ok m => .ok (some (some m))
    | .error ArgExc.typeError =>
      -- skipped entry or trailing whitespace?
      if check ≠ Check.strict ∧
          ((skip ≠ "" ∧ token = skip) ∨ (token.length = 0 ∧ tokens.length - 1 = i)) then
        .ok (some none)
      else if check = Check.silent then .ok none
      else .error (BpdiagError.wrongTokenShape (pySplit separator token).length token)
    | .error ArgExc.valueError =>
      if check = Check.silent then .ok none
      else .error (BpdiagError.cantConvert (pySplit separator token))

/-- The slot loop `for i in range(count)` of `parse_plaintext`, starting at
index `i` with `count` iterations left; accumulates `line_data`. -/
def parseSlotsFrom (skip separator line : String) (check : Check) (entries : Nat)
    (tokens : List String) (i : Nat) :
    Nat → Except BpdiagError (List (Option Measurement))
  | 0 => .ok []
  | Nat.succ c =>
    match parseSlot skip separator line check entries tokens i with
    | .error e => .error e
    | .ok none => parseSlotsFrom skip separator line check entries tokens (i + 1) c
    | .ok (some x) =>
      match parseSlotsFrom skip separator line check entries tokens (i + 1) c with
      | .error e => .error e
      | .ok rest => .ok (x :: rest)

/-- Parses one (already stripped, nonempty-or-kept) line of `parse_plaintext`:
split into tokens by *delimiter*, then run the slot loop over
`range(entries if entries else len(tokens))`. -/
def parseLine (skip separator delimiter line : String) (check : Check) (entries : Nat) :
    Except BpdiagError (List (Option Measurement)) :=
  let tokens := pySplit delimiter line
  parseSlotsFrom skip separator line check entries tokens 0
    (if entries ≠ 0 then entries else tokens.length)

/-- An element of the Python list built by `parse_plaintext` / handed to
`Statistic`: either a single measurement-or-`None` (flat mode) or a whole
line's list (when `align_lines` is set). -/
inductive Item
  | entry (e : Option Measurement)
  | line (l : List (Option Measurement))
deriving DecidableEq

/-- Models `parse_plaintext(lines, align_lines, keep_empty_lines, entries,
skip, separator, delimiter, check)` from `bpdiag.py`. -/
def parse_plaintext (lines : List String) (align_lines keep_empty_lines : Bool)
    (entries : Nat) (skip separator delimiter : String) (check : Check) :
    Except BpdiagError (List Item) :=
  match lines with
  | [] => .ok []
  | l :: rest =>
    let line := pyStrip l
    if line = "" ∧ keep_empty_lines = false then
      parse_plaintext rest align_lines keep_empty_lines entries skip separator delimiter check
    else
      match parseLine skip separator delimiter line check entries with
      | .error e => .error e
      | .ok line_data =>
        match parse_plaintext rest align_lines keep_empty_lines entries skip separator delimiter check with
        | .error e => .error e
        | .ok rest_data =>
          .ok ((if align_lines then [Item.line line_data] else line_data.map Item.entry) ++ rest_data)

/-- `parse_plaintext` with every optional argument at its default. -/
def parsePlainDefault (lines : List String) : Except BpdiagError (List Item) :=
  parse_plaintext lines false false 0 "-" "/" "," Check.lenient

/-- `parse_plaintext` with the per-line entry cap set and all other
options at their defaults. -/
def parsePlainEntries (lines : List String) (entries : Nat) : Except BpdiagError (List Item) :=
  parse_plaintext lines false false entries "-" "/" "," Check.lenient

/-- A runtime exception escaping `Statistic.__init__` / `evaluate_data`:
`indexError` from `self.data[0]` on an empty list in `is_list`,
`typeError` from `itertools.chain.from_iterable` meeting a non-iterable. -/
inductive RuntimeExc
  | indexError
  | typeError
deriving DecidableEq

/-- Models the `Statistic.is_list` property:
`isinstance(self.data[0], list)`; indexing an empty list raises. -/
def Statistic.isList : List Item → Except RuntimeExc Bool
  | [] => .error RuntimeExc.indexError
  | Item.line _ :: _ => .ok true
  | Item.entry _ :: _ => .ok false

/-- Models `list(itertools.chain.from_iterable(self.data))`: every element
must be iterable (a list); a `Measurement` or `None` element raises
`TypeError`.  The flattened entries are re-wrapped as `Item.entry` so the
result type matches the un-flattened branch of `values`. -/
def Statistic.chainFromIterable : List Item → Except RuntimeExc (List Item)
  | [] => .ok []
  | Item.line l :: rest =>
    match Statistic.chainFromIterable rest with
    | .error e => .error e
    | .ok r => .ok (l.map Item.entry ++ r)
  | Item.entry _ :: _ => .error RuntimeExc.typeError

/-- Models the `Statistic.values` property. -/
def Statistic.values (data : List Item) : Except RuntimeExc (List Item) :=
  match Statistic.isList data with
  | .error e => .error e
  | .ok true => Statistic.chainFromIterable data
  | .ok false => .ok data

/-- Models `getattr(measure, 'sys', None)` over an element of `values`:
a real `Measurement` has the attribute, `None` and lists do not. -/
def getSysAttr : Item → Option Int
  | Item.entry (some m) => some m.sys
  | _ => none

/-- Models `getattr(measure, 'dia', None)`. -/
def getDiaAttr : Item → Option Int
  | Item.entry (some m) => some m.dia
  | _ => none

/-- Models `getattr(measure, 'pulse', None)`. -/
def getPulseAttr : Item → Option Int
  | Item.entry (some m) => some m.pulse
  | _ => none

/-- Models Python 2 `filter(None, values)` on a list of int-or-`None`:
keeps only *truthy* elements, so it drops `None` **and** `0`. -/
def pyTruthyInts (l : List (Option Int)) : List Int :=
  l.filterMap fun o =>
    match o with
    | some v => if v = 0 then none else some v
    | none => none

/-- Models Python `min(values)` (guarded by `if values:` in the source,
so the empty case carries the `None` the source assigns instead). -/
def pyMin : List Int → Option Int
  | [] => none
  | x :: xs => some (xs.foldl min x)

/-- Models Python `max(values)` (empty case as in `pyMin`). -/
def pyMax : List Int → Option Int
  | [] => none
  | x :: xs => some (xs.foldl max x)

/-- Models Python 2 `sum(values) / len(values)`: floor division of the sum by
the length (empty case as in `pyMin`). -/
def pyAvg : List Int → Option Int
  | [] => none
  | x :: xs => some (Int.fdiv (x :: xs).sum (x :: xs).length)

/-- The attributes a `Statistic` instance holds after `evaluate_data`. -/
structure Stats where
  data : List Item
  sys : List (Option Int)
  dia : List (Option Int)
  pulse : List (Option Int)
  sys_min : Option Int
  sys_max : Option Int
  sys_avg : Option Int
  dia_min : Option Int
  dia_max : Option Int
  dia_avg : Option Int
  pulse_min : Option Int
  pulse_max : Option Int
  pulse_avg : Option Int
deriving DecidableEq

/-- Models `Statistic.__init__(data)` (which stores `data` and immediately
runs `evaluate_data`): builds the three per-field raw lists over `values`
and derives min/max/avg of `filter(None, ·)` of each. -/
def Statistic.construct (data : List Item) : Except RuntimeExc Stats :=
  match Statistic.values data with
  | .error e => .error e
  | .ok vals =>
    let sysL := vals.map getSysAttr
    let diaL := vals.map getDiaAttr
    let pulseL := vals.map getPulseAttr
    .ok {
      data := data
      sys := sysL
      dia := diaL
      pulse := pulseL
      sys_min := pyMin (pyTruthyInts sysL)
      sys_max := pyMax (pyTruthyInts sysL)
      sys_avg := pyAvg (pyTruthyInts sysL)
      dia_min := pyMin (pyTruthyInts diaL)
      dia_max := pyMax (pyTruthyInts diaL)
      dia_avg := pyAvg (pyTruthyInts diaL)
      pulse_min := pyMin (pyTruthyInts pulseL)
      pulse_max := pyMax (pyTruthyInts pulseL)
      pulse_avg := pyAvg (pyTruthyInts pulseL)
    }

/-- A well-formed Dataset as produced by one parser invocation (spec §3):
either flat, or aligned by line.  Its Python representation is `toPyList`. -/
inductive Dataset
  | flat (entries : List (Option Measurement))
  | aligned (lines : List (List (Option Measurement)))
deriving DecidableEq

/-- The Python list a `Dataset` is represented by (what `Statistic` receives). -/
def Dataset.toPyList : Dataset → List Item
  | Dataset.flat es => es.map Item.entry
  | Dataset.aligned ls => ls.map Item.line

/-- The flattened sequence of entries of a `Dataset` (spec-side view). -/
def Dataset.flatten : Dataset → List (Option Measurement)
  | Dataset.flat es => es
  | Dataset.aligned ls => ls.flatten

/-- Spec-side helper: the field values of the *real* (non-placeholder)
entries of a flattened dataset, in order. -/
def realValues (f : Measurement → Int) (es : List (Option Measurement)) : List Int :=
  es.filterMap fun e => Option.map f e

/-- Spec-side helper: the nonzero elements of a value list. -/
def nonzeroValues (l : List Int) : List Int :=
  l.filter fun v => v != 0

/-- A decoded JSON value, as returned by Python's `json.loads`. -/
inductive Json
  | null
  | bool (b : Bool)
  | num (n : Int)
  | str (s : String)
  | arr (elems : List Json)
  | obj (fields : List (String × Json))

/-- JSON whitespace. -/
def jsonWs (c : Char) : Bool :=
  c == ' ' || c == '\t' || c == '\n' || c == '\r'

/-- Drop leading JSON whitespace. -/
def skipWs (cs : List Char) : List Char :=
  cs.dropWhile jsonWs

/-- Reads a JSON string body after the opening quote.  Escape sequences are
not modelled (no claim exercises them): a backslash fails the parse. -/
def jsonString (cs : List Char) : Option (String × List Char) :=
  let content := cs.takeWhile fun c => c != '"' && c != '\\'
  match cs.drop content.length with
  | '"' :: rest => some (String.mk content, rest)
  | _ => none

/-- Digit run to a `Nat`. -/
def digitsToNat (ds : List Char) : Nat :=
  ds.foldl (fun a c => 10 * a + (c.toNat - 48)) 0

/-- Does the rest of the input continue a number into a float
(`.`, `e`, `E`)?  Floats are not modelled (no claim uses them). -/
def jsonNumCont (cs : List Char) : Bool :=
  match cs with
  | c :: _ => c == '.' || c == 'e' || c == 'E'
  | [] => false

/-- Reads a JSON integer (optional minus sign, digit run). -/
def jsonNum (cs : List Char) : Option (Json × List Char) :=
  match cs with
  | '-' :: rest =>
    let ds := rest.takeWhile Char.isDigit
    if ds.isEmpty then none
    else
      let rest2 := rest.drop ds.length
      if jsonNumCont rest2 then none
      else some (Json.num (-(digitsToNat ds : Int)), rest2)
  | _ =>
    let ds := cs.takeWhile Char.isDigit
    if ds.isEmpty then none
    else
      let rest2 := cs.drop ds.length
      if jsonNumCont rest2 then none
      else some (Json.num (digitsToNat ds : Int), rest2)

mutual

/-- Fuel-driven recursive-descent JSON value reader (models `json.loads`
up to the caveats noted at `loads`). -/
def jsonVal : Nat → List Char → Option (Json × List Char)
  | 0, _ => none
  | Nat.succ f, cs0 =>
    let cs := skipWs cs0
    if ['n', 'u', 'l', 'l'].isPrefixOf cs then some (Json.null, cs.drop 4)
    else if ['t', 'r', 'u', 'e'].isPrefixOf cs then some (Json.bool true, cs.drop 4)
    else if ['f', 'a', 'l', 's', 'e'].isPrefixOf cs then some (Json.bool false, cs.drop 5)
    else
      match cs with
      | [] => none
      | c :: rest =>
        if c = '[' then
          match skipWs rest with
          | ']' :: rest2 => some (Json.arr [], rest2)
          | _ =>
            match jsonElems f rest with
            | some (es, rest2) => some (Json.arr es, rest2)
            | none => none
        else if c = '\x7b' then
          match skipWs rest with
          | '\x7d' :: rest2 => some (Json.obj [], rest2)
          | _ =>
            match jsonFields f rest with
            | some (fs, rest2) => some (Json.obj fs, rest2)
            | none => none
        else if c = '"' then
          match jsonString rest with
          | some (s, rest2) => some (Json.str s, rest2)
          | none => none
        else if c = '-' ∨ c.isDigit then jsonNum cs
        else none

/-- Reads the elements of a nonempty JSON array (after the `[`). -/
def jsonElems : Nat → List Char → Option (List Json × List Char)
  | 0, _ => none
  | Nat.succ f, cs =>
    match jsonVal f cs with
    | none => none
    | some (j, rest) =>
      match skipWs rest with
      | ',' :: rest2 =>
        match jsonElems f rest2 with
        | some (js, rest3) => some (j :: js, rest3)
        | none => none
      | ']' :: rest2 => some ([j], rest2)
      | _ => none

/-- Reads the fields of a nonempty JSON object (after the opening brace). -/
def jsonFields : Nat → List Char → Option (List (String × Json) × List Char)
  | 0, _ => none
  | Nat.succ f, cs =>
    match skipWs cs with
    | '"' :: rest =>
      match jsonString rest with
      | none => none
      | some (k, rest2) =>
        match skipWs rest2 with
        | ':' :: rest3 =>
          match jsonVal f rest3 with
          | none => none
          | some (v, rest4) =>
            match skipWs rest4 with
            | ',' :: rest5 =>
              match jsonFields f rest5 with
              | some (fs, rest6) => some ((k, v) :: fs, rest6)
              | none => none
            | '\x7d' :: rest5 => some ([(k, v)], rest5)
            | _ => none
        | _ => none
    | _ => none

end

/-- Models Python's `json.loads` (external standard library collaborator):
parses one JSON document, requiring the whole input to be consumed.
Failure (Python `ValueError`) is `none`.  Caveats (none exercised by any
claim): floats, string escapes and pathologically deep nesting beyond the
fuel bound are rejected rather than parsed. -/
def loads (s : String) : Option Json :=
  match jsonVal (4 * s.data.length + 8) s.data with
  | some (j, rest) => if (skipWs rest).isEmpty then some j else none
  | none => none

/-- Models Python `int(x)` on a decoded JSON value: numbers pass through,
numeric strings convert (else `ValueError`), booleans convert, and
`None`/lists/objects raise `TypeError`. -/
def pyIntOfJson : Json → Except ArgExc Int
  | Json.num n => .ok n
  | Json.str s =>
    match pyInt s with
    | some v => .ok v
    | none => .error ArgExc.valueError
  | Json.bool b => .ok (if b then 1 else 0)
  | _ => .error ArgExc.typeError

/-- Models Python iteration over a decoded JSON value (`for entry in x` and
argument unpacking `*x`): lists yield elements, dicts yield their keys,
strings yield their characters, everything else raises `TypeError`. -/
def starIterate : Json → Except ArgExc (List Json)
  | Json.arr es => .ok es
  | Json.obj fs => .ok (fs.map fun p => Json.str p.fst)
  | Json.str s => .ok (s.data.map fun c => Json.str (String.mk [c]))
  | _ => .error ArgExc.typeError

/-- Models `Measurement(*entry)` for a decoded JSON element (`as_obj=False`):
the element must unpack to exactly three positional values, each coerced
with `int()`. -/
def measurementFromStar (j : Json) : Except ArgExc Measurement :=
  match starIterate j with
  | .error e => .error e
  | .ok args =>
    match args with
    | [a, b, c] =>
      match pyIntOfJson a with
      | .error e => .error e
      | .ok sv =>
        match pyIntOfJson b with
        | .error e => .error e
        | .ok dv =>
          match pyIntOfJson c with
          | .error e => .error e
          | .ok pv => .ok { sys := sv, dia := dv, pulse := pv }
    | _ => .error ArgExc.typeError

/-- Models `Measurement(**entry)` for a decoded JSON element (`as_obj=True`):
the element must be an object carrying `sys`, `dia` and `pulse` keys (extra
keys become extra attributes, which the model omits); applying `**` to a
non-mapping raises `TypeError`. -/
def measurementFromKwargs : Json → Except ArgExc Measurement
  | Json.obj fs =>
    match fs.lookup "sys", fs.lookup "dia", fs.lookup "pulse" with
    | some a, some b, some c =>
      match pyIntOfJson a with
      | .error e => .error e
      | .ok sv =>
        match pyIntOfJson b with
        | .error e => .error e
        | .ok dv =>
          match pyIntOfJson c with
          | .error e => .error e
          | .ok pv => .ok { sys := sv, dia := dv, pulse := pv }
    | _, _, _ => .error ArgExc.typeError
  | _ => .error ArgExc.typeError

/-- How a parser invocation can fail as observed by the caller: a raised
`BpdiagError` (caught by `main`), or an uncaught `TypeError` escaping the
function (not part of the tool's error handling at all). -/
inductive PyFailure
  | bpdiag (e : BpdiagError)
  | typeError
deriving DecidableEq

/-- Models `parse_json(lines, as_obj, check)` from `bpdiag.py`: joins the
chunks, decodes one JSON document and builds one `Measurement` per element.
Only `ValueError` is caught (`json` decode errors and `int()` conversion
errors); a `TypeError` from a wrong-shaped element escapes uncaught. -/
def parse_json (lines : List String) (as_obj : Bool) (check : Check) :
    Except PyFailure (List Measurement) :=
  match loads (String.join lines) with
  | none =>
    if check = Check.silent then .ok []
    else .error (PyFailure.bpdiag BpdiagError.jsonDecode)
  | some j =>
    match starIterate j with
    | .error _ => .error PyFailure.typeError
    | .ok entries =>
      match entries.mapM (fun e => if as_obj then measurementFromKwargs e else measurementFromStar e) with
      | .ok ms => .ok ms
      | .error ArgExc.valueError =>
        if check = Check.silent then .ok []
        else .error (PyFailure.bpdiag BpdiagError.jsonDecode)
      | .error ArgExc.typeError => .error PyFailure.typeError

/-- The `csv.DictReader` iterator object constructed by `parse_csv`
(external standard library collaborator; its fields record the constructor
arguments). -/
structure DictReader where
  lines : List String
  fieldnames : List String
  restkey : String
  delimiter : String

/-- Models evaluating `Measurement(**reader)` where `reader` is a
`csv.DictReader` object: `**` (keyword-argument expansion) requires a
mapping, and a `DictReader` is an iterator, not a mapping, so CPython
raises `TypeError` before any input line is read. -/
def measurementFromStarStarReader (_reader : DictReader) : Except PyFailure Measurement :=
  .error PyFailure.typeError

/-- Models `parse_csv(lines, fieldnames, delimiter)` from `bpdiag.py`: the
source evaluates the single expression
`[Measurement(**csv.DictReader(lines, fieldnames, restkey='extra', delimiter=delimiter))]`,
i.e. it applies `**` to the reader object itself (rather than iterating its
rows), and wraps the single resulting instance in a list. -/
def parse_csv (lines : List String) (fieldnames : List String) (delimiter : String) :
    Except PyFailure (List Measurement) :=
  match measurementFromStarStarReader
      { lines := lines, fieldnames := fieldnames, restkey := "extra", delimiter := delimiter } with
  | .error e => .error e
  | .ok m => .ok [m]

deriving instance DecidableEq for Except

theorem mkMeasurement_typeError (args : List String) (h : args.length ≠ 3) :
    mkMeasurement args = .error ArgExc.typeError := by
  match args with
  | [] => rfl
  | [a] => rfl
  | [a, b] => rfl
  | [a, b, c] => exact absurd rfl h
  | a :: b :: c :: d :: t => rfl

theorem parseSlot_valid (skip separator line : String) (check : Check) (entries : Nat)
    (tokens : List String) (i : Nat) (tok : String) (m : Measurement)
    (hget : tokens.get? i = some tok)
    (hmk : mkMeasurement (pySplit separator (pyStrip tok)) = .ok m) :
    parseSlot skip separator line check entries tokens i = .ok (some (some m)) := by
  unfold parseSlot
  rw [hget]
  simp only [hmk]

theorem parseSlot_overrun (skip separator line : String) (check : Check) (entries : Nat)
    (tokens : List String) (i : Nat)
    (hget : tokens.get? i = none) (hc : check ≠ Check.strict) (he : entries ≠ 0) :
    parseSlot skip separator line check entries tokens i = .ok (some none) := by
  unfold parseSlot
  rw [hget]
  simp [hc, he]

theorem parseSlotsFrom_pad (skip separator line : String) (check : Check) (entries : Nat)
    (tokens : List String) (hc : check ≠ Check.strict) (he : entries ≠ 0) :
    ∀ (c i : Nat), tokens.length ≤ i →
      parseSlotsFrom skip separator line check entries tokens i c =
        .ok (List.replicate c none) := by
  intro c
  induction c with
  | zero => intro i _; rfl
  | succ c ih =>
    intro i hi
    have hget : tokens.get? i = none := List.get?_eq_none.mpr hi
    simp only [parseSlotsFrom]
    rw [parseSlot_overrun skip separator line check entries tokens i hget hc he]
    rw [ih (i + 1) (by omega)]
    rfl

theorem parseSlotsFrom_complete (skip separator line : String) (entries : Nat)
    (tokens : List String) (ms : List Measurement)
    (hval : List.Forall₂ (fun t m => mkMeasurement (pySplit separator (pyStrip t)) = .ok m) tokens ms)
    (he : entries ≠ 0) :
    ∀ (c i : Nat), i ≤ tokens.length → tokens.length ≤ i + c →
      parseSlotsFrom skip separator line Check.lenient entries tokens i c =
        .ok ((ms.drop i).map some ++ List.replicate (i + c - tokens.length) none) := by
  have hlen : tokens.length = ms.length := hval.length_eq
  intro c
  induction c with
  | zero =>
    intro i hi hc
    have : i = tokens.length := le_antisymm hi hc
    subst this
    rw [List.drop_eq_nil_of_le (by omega)]
    simp
    rfl
  | succ c ih =>
    intro i hi hc
    by_cases h : i < tokens.length
    · have hm : i < ms.length := by omega
      have hget : tokens.get? i = some (tokens.get ⟨i, h⟩) := List.get?_eq_get h
      have hrel := hval.get h hm
      simp only [parseSlotsFrom]
      rw [parseSlot_valid skip separator line Check.lenient entries tokens i _ _ hget hrel]
      rw [ih (i + 1) (by omega) (by omega)]
      rw [List.drop_eq_getElem_cons hm]
      simp only [List.map_cons, List.get_eq_getElem]
      have : i + 1 + c - tokens.length = i + (c + 1) - tokens.length := by omega
      rw [this, List.cons_append]
    · have hi' : i = tokens.length := by omega
      have hget : tokens.get? i = none := List.get?_eq_none.mpr (by omega)
      simp only [parseSlotsFrom]
      rw [parseSlot_overrun skip separator line Check.lenient entries tokens i hget
        (by decide) he]
      rw [parseSlotsFrom_pad skip separator line Check.lenient entries tokens (by decide) he c
        (i + 1) (by omega)]
      subst hi'
      rw [List.drop_eq_nil_of_le (by omega)]
      simp
      rw [List.replicate_succ]

theorem getSysAttr_entry (e : Option Measurement) :
    getSysAttr (Item.entry e) = Option.map Measurement.sys e := by
  cases e <;> rfl

theorem getDiaAttr_entry (e : Option Measurement) :
    getDiaAttr (Item.entry e) = Option.map Measurement.dia e := by
  cases e <;> rfl

theorem getPulseAttr_entry (e : Option Measurement) :
    getPulseAttr (Item.entry e) = Option.map Measurement.pulse e := by
  cases e <;> rfl

theorem chainFromIterable_map_line (ls : List (List (Option Measurement))) :
    Statistic.chainFromIterable (ls.map Item.line) = .ok (ls.flatten.map Item.entry) := by
  induction ls with
  | nil => rfl
  | cons l ls ih =>
    simp only [List.map_cons, Statistic.chainFromIterable, ih, List.flatten_cons, List.map_append]

theorem values_toPyList (d : Dataset) (h : d.toPyList ≠ []) :
    Statistic.values d.toPyList = .ok (d.flatten.map Item.entry) := by
  cases d with
  | flat es =>
    cases es with
    | nil => exact absurd rfl h
    | cons e es' => rfl
  | aligned ls =>
    cases ls with
    | nil => exact absurd rfl h
    | cons l ls' => exact chainFromIterable_map_line (l :: ls')

theorem construct_toPyList (d : Dataset) (h : d.toPyList ≠ []) :
    Statistic.construct d.toPyList = .ok {
      data := d.toPyList
      sys := d.flatten.map fun e => Option.map Measurement.sys e
      dia := d.flatten.map fun e => Option.map Measurement.dia e
      pulse := d.flatten.map fun e => Option.map Measurement.pulse e
      sys_min := pyMin (pyTruthyInts (d.flatten.map fun e => Option.map Measurement.sys e))
      sys_max := pyMax (pyTruthyInts (d.flatten.map fun e => Option.map Measurement.sys e))
      sys_avg := pyAvg (pyTruthyInts (d.flatten.map fun e => Option.map Measurement.sys e))
      dia_min := pyMin (pyTruthyInts (d.flatten.map fun e => Option.map Measurement.dia e))
      dia_max := pyMax (pyTruthyInts (d.flatten.map fun e => Option.map Measurement.dia e))
      dia_avg := pyAvg (pyTruthyInts (d.flatten.map fun e => Option.map Measurement.dia e))
      pulse_min := pyMin (pyTruthyInts (d.flatten.map fun e => Option.map Measurement.pulse e))
      pulse_max := pyMax (pyTruthyInts (d.flatten.map fun e => Option.map Measurement.pulse e))
      pulse_avg := pyAvg (pyTruthyInts (d.flatten.map fun e => Option.map Measurement.pulse e))
    } := by
  have hs : getSysAttr ∘ Item.entry = fun e => Option.map Measurement.sys e :=
    funext getSysAttr_entry
  have hd : getDiaAttr ∘ Item.entry = fun e => Option.map Measurement.dia e :=
    funext getDiaAttr_entry
  have hp : getPulseAttr ∘ Item.entry = fun e => Option.map Measurement.pulse e :=
    funext getPulseAttr_entry
  simp only [Statistic.construct, values_toPyList d h, List.map_map, hs, hd, hp]

theorem pyTruthy_map (f : Measurement → Int) (es : List (Option Measurement)) :
    pyTruthyInts (es.map fun e => Option.map f e) = nonzeroValues (realValues f es) := by
  induction es with
  | nil => rfl
  | cons e es ih =>
    cases e with
    | none =>
      simpa [pyTruthyInts, realValues, nonzeroValues, List.filterMap_cons, List.filter_cons]
        using ih
    | some m =>
      by_cases hz : f m = 0 <;>
        simp [pyTruthyInts, realValues, nonzeroValues, List.filterMap_cons, List.filter_cons,
          hz, ih] <;>
        simp [pyTruthyInts, nonzeroValues] at ih <;> exact ih

theorem pyAvg_of_ne_nil (l : List Int) (h : l ≠ []) :
    pyAvg l = some (Int.fdiv l.sum l.length) := by
  cases l with
  | nil => exact absurd rfl h
  | cons x xs => rfl

theorem toPyList_ne_nil (d : Dataset) (h : d.flatten ≠ []) : d.toPyList ≠ [] := by
  cases d with
  | flat es =>
    cases es with
    | nil => exact absurd rfl h
    | cons e es' => simp [Dataset.toPyList]
  | aligned ls =>
    cases ls with
    | nil => exact absurd rfl h
    | cons l ls' => simp [Dataset.toPyList]

theorem realValues_eq_nil (f : Measurement → Int) (es : List (Option Measurement))
    (h : ∀ e ∈ es, e = none) : realValues f es = [] := by
  unfold realValues
  rw [List.filterMap_eq_nil_iff]
  intro a ha
  rw [h a ha]
  rfl

/-- C1: with all options at their defaults, parsing the lines
`["136/83/65", "132/82/70", "144/82/86"]` yields exactly the three
measurements in order, and the aggregator built from that result has
`sys = [136, 132, 144]`, `sys_min = 132`, `sys_max = 144`, `sys_avg = 137`. -/
theorem scenarioA_default_plaintext_statistics :
    parsePlainDefault ["136/83/65", "132/82/70", "144/82/86"] =
      .ok [Item.entry (some ⟨136, 83, 65⟩), Item.entry (some ⟨132, 82, 70⟩),
        Item.entry (some ⟨144, 82, 86⟩)] ∧
    Except.map Stats.sys (Statistic.construct
        [Item.entry (some ⟨136, 83, 65⟩), Item.entry (some ⟨132, 82, 70⟩),
          Item.entry (some ⟨144, 82, 86⟩)]) = .ok [some 136, some 132, some 144] ∧
    Except.map Stats.sys_min (Statistic.construct
        [Item.entry (some ⟨136, 83, 65⟩), Item.entry (some ⟨132, 82, 70⟩),
          Item.entry (some ⟨144, 82, 86⟩)]) = .ok (some 132) ∧
    Except.map Stats.sys_max (Statistic.construct
        [Item.entry (some ⟨136, 83, 65⟩), Item.entry (some ⟨132, 82, 70⟩),
          Item.entry (some ⟨144, 82, 86⟩)]) = .ok (some 144) ∧
    Except.map Stats.sys_avg (Statistic.construct
        [Item.entry (some ⟨136, 83, 65⟩), Item.entry (some ⟨132, 82, 70⟩),
          Item.entry (some ⟨144, 82, 86⟩)]) = .ok (some 137) :=
  ⟨rfl, rfl, rfl, rfl, rfl⟩

/-- C2: with the per-line entry cap set to `N` and all other options at their
defaults (lenient mode), a line whose `k < N` tokens all parse as valid
measurements produces exactly `N` slots: the `k` parsed measurements in token
order followed by `N - k` placeholders. -/
theorem plaintext_entry_cap_pads_with_placeholders (line : String) (N : Nat)
    (ms : List Measurement)
    (hlt : (pySplit "," (pyStrip line)).length < N)
    (hval : List.Forall₂ (fun t m => mkMeasurement (pySplit "/" (pyStrip t)) = Except.ok m)
      (pySplit "," (pyStrip line)) ms) :
    parse_plaintext [line] false false N "-" "/" "," Check.lenient =
      Except.ok ((ms.map fun m => Item.entry (some m)) ++
        List.replicate (N - ms.length) (Item.entry none)) := by
  have hlen : (pySplit "," (pyStrip line)).length = ms.length := hval.length_eq
  have hne : pyStrip line ≠ "" := by
    intro h
    rw [h, show pySplit "," "" = [""] from rfl] at hval
    cases hval with
    | cons ha _ =>
      rw [show mkMeasurement (pySplit "/" (pyStrip "")) = Except.error ArgExc.typeError
        from rfl] at ha
      exact Except.noConfusion ha
  have hN : N ≠ 0 := by omega
  have hline : parseLine "-" "/" "," (pyStrip line) Check.lenient N =
      Except.ok (ms.map some ++ List.replicate (N - ms.length) none) := by
    show parseSlotsFrom "-" "/" (pyStrip line) Check.lenient N (pySplit "," (pyStrip line)) 0
        (if N ≠ 0 then N else (pySplit "," (pyStrip line)).length) =
      Except.ok (ms.map some ++ List.replicate (N - ms.length) none)
    rw [if_pos hN]
    have := parseSlotsFrom_complete "-" "/" (pyStrip line) N (pySplit "," (pyStrip line)) ms
      hval hN N 0 (by omega) (by omega)
    rw [this]
    rw [List.drop_zero, show 0 + N = N from by omega, hlen]
  simp only [parse_plaintext]
  rw [if_neg (fun hand => hne hand.1)]
  rw [hline]
  simp only [List.map_append, List.map_map, List.map_replicate, List.append_nil]
  rfl

/-- C2 witness (scenario B): the line `"123/78/67, 136/83/65"` with the cap
set to 3 yields the two parsed measurements followed by one placeholder. -/
theorem plaintext_entry_cap_pads_scenarioB :
    parse_plaintext ["123/78/67, 136/83/65"] false false 3 "-" "/" "," Check.lenient =
      .ok [Item.entry (some ⟨123, 78, 67⟩), Item.entry (some ⟨136, 83, 65⟩),
        Item.entry none] := by
  have h := plaintext_entry_cap_pads_with_placeholders "123/78/67, 136/83/65" 3
    [⟨123, 78, 67⟩, ⟨136, 83, 65⟩]
    (by decide) (List.Forall₂.cons rfl (List.Forall₂.cons rfl List.Forall₂.nil))
  exact h

/-- C3 (amended: the dataset must be nonempty — the original claim is false
for the empty dataset, see the counterexample): constructing a `Statistic`
from a nonempty all-placeholder dataset succeeds, with all nine derived
min/max/avg fields set to `None`, and in particular no division error. -/
theorem statistic_all_placeholder_nonempty_null_stats (d : Dataset)
    (hne : d.toPyList ≠ []) (hall : ∀ e ∈ d.flatten, e = none) :
    ∃ s, Statistic.construct d.toPyList = .ok s ∧
      s.sys_min = none ∧ s.sys_max = none ∧ s.sys_avg = none ∧
      s.dia_min = none ∧ s.dia_max = none ∧ s.dia_avg = none ∧
      s.pulse_min = none ∧ s.pulse_max = none ∧ s.pulse_avg = none := by
  refine ⟨_, construct_toPyList d hne, ?_, ?_, ?_, ?_, ?_, ?_, ?_, ?_, ?_⟩ <;>
    simp only [pyTruthy_map, realValues_eq_nil _ _ hall] <;> rfl

/-- C3 counterexample: the empty dataset is (vacuously) all-placeholder, yet
constructing a `Statistic` from it does not set the derived fields to null —
it raises `IndexError` (from `self.data[0]` in `is_list`) instead. -/
theorem statistic_empty_placeholder_dataset_raises :
    (∀ e ∈ (Dataset.flat []).flatten, e = none) ∧
    Statistic.construct (Dataset.flat []).toPyList = .error RuntimeExc.indexError :=
  ⟨fun e he => absurd he (List.not_mem_nil e), rfl⟩

/-- C3 witness: the flat dataset `[None, None]`. -/
theorem statistic_all_placeholder_witness :
    ∃ s, Statistic.construct (Dataset.flat [none, none]).toPyList = .ok s ∧
      s.sys_min = none ∧ s.sys_max = none ∧ s.sys_avg = none ∧
      s.dia_min = none ∧ s.dia_max = none ∧ s.dia_avg = none ∧
      s.pulse_min = none ∧ s.pulse_max = none ∧ s.pulse_avg = none :=
  statistic_all_placeholder_nonempty_null_stats (Dataset.flat [none, none])
    (by decide) (by decide)

/-- C4 (amended: min/max/avg are computed over the *nonzero* values of the
real entries — Python 2's `filter(None, ·)` drops the value `0` along with
the placeholders, see the counterexample): for a dataset containing real
measurements and placeholders, construction succeeds, each raw per-field
list is the flattened dataset's field values with `None` exactly at the
placeholder positions (1:1 aligned), and each derived min/max/avg is
computed over the nonzero values of the real entries of that field. -/
theorem statistic_mixed_dataset_alignment_and_stats (d : Dataset)
    (_hreal : ∃ m, some m ∈ d.flatten) (hph : none ∈ d.flatten) :
    ∃ s, Statistic.construct d.toPyList = .ok s ∧
      s.sys = d.flatten.map (fun e => Option.map Measurement.sys e) ∧
      s.dia = d.flatten.map (fun e => Option.map Measurement.dia e) ∧
      s.pulse = d.flatten.map (fun e => Option.map Measurement.pulse e) ∧
      s.sys_min = pyMin (nonzeroValues (realValues Measurement.sys d.flatten)) ∧
      s.sys_max = pyMax (nonzeroValues (realValues Measurement.sys d.flatten)) ∧
      s.sys_avg = pyAvg (nonzeroValues (realValues Measurement.sys d.flatten)) ∧
      s.dia_min = pyMin (nonzeroValues (realValues Measurement.dia d.flatten)) ∧
      s.dia_max = pyMax (nonzeroValues (realValues Measurement.dia d.flatten)) ∧
      s.dia_avg = pyAvg (nonzeroValues (realValues Measurement.dia d.flatten)) ∧
      s.pulse_min = pyMin (nonzeroValues (realValues Measurement.pulse d.flatten)) ∧
      s.pulse_max = pyMax (nonzeroValues (realValues Measurement.pulse d.flatten)) ∧
      s.pulse_avg = pyAvg (nonzeroValues (realValues Measurement.pulse d.flatten)) := by
  have hne : d.toPyList ≠ [] :=
    toPyList_ne_nil d (by intro h; rw [h] at hph; exact absurd hph (List.not_mem_nil none))
  refine ⟨_, construct_toPyList d hne, rfl, rfl, rfl, ?_, ?_, ?_, ?_, ?_, ?_, ?_, ?_, ?_⟩ <;>
    simp only [pyTruthy_map]

/-- C4 counterexample: the dataset `[Measurement(0, 80, 60), None]` has one
real entry whose `sys` value is `0`; the minimum over the real entries would
be `0`, but the aggregator reports `sys_min = None` because `filter(None, ·)`
drops the zero. -/
theorem statistic_zero_value_excluded_from_stats :
    realValues Measurement.sys (Dataset.flat [some ⟨0, 80, 60⟩, none]).flatten = [0] ∧
    pyMin [0] = some 0 ∧
    Except.map Stats.sys_min
      (Statistic.construct (Dataset.flat [some ⟨0, 80, 60⟩, none]).toPyList) = .ok none :=
  ⟨rfl, rfl, rfl⟩

/-- C4 witness: the flat dataset `[Measurement(120, 80, 60), None]`. -/
theorem statistic_mixed_dataset_witness :
    ∃ s, Statistic.construct (Dataset.flat [some ⟨120, 80, 60⟩, none]).toPyList = .ok s ∧
      s.sys = (Dataset.flat [some ⟨120, 80, 60⟩, none]).flatten.map
        (fun e => Option.map Measurement.sys e) ∧
      s.dia = (Dataset.flat [some ⟨120, 80, 60⟩, none]).flatten.map
        (fun e => Option.map Measurement.dia e) ∧
      s.pulse = (Dataset.flat [some ⟨120, 80, 60⟩, none]).flatten.map
        (fun e => Option.map Measurement.pulse e) ∧
      s.sys_min = pyMin (nonzeroValues (realValues Measurement.sys
        (Dataset.flat [some ⟨120, 80, 60⟩, none]).flatten)) ∧
      s.sys_max = pyMax (nonzeroValues (realValues Measurement.sys
        (Dataset.flat [some ⟨120, 80, 60⟩, none]).flatten)) ∧
      s.sys_avg = pyAvg (nonzeroValues (realValues Measurement.sys
        (Dataset.flat [some ⟨120, 80, 60⟩, none]).flatten)) ∧
      s.dia_min = pyMin (nonzeroValues (realValues Measurement.dia
        (Dataset.flat [some ⟨120, 80, 60⟩, none]).flatten)) ∧
      s.dia_max = pyMax (nonzeroValues (realValues Measurement.dia
        (Dataset.flat [some ⟨120, 80, 60⟩, none]).flatten)) ∧
      s.dia_avg = pyAvg (nonzeroValues (realValues Measurement.dia
        (Dataset.flat [some ⟨120, 80, 60⟩, none]).flatten)) ∧
      s.pulse_min = pyMin (nonzeroValues (realValues Measurement.pulse
        (Dataset.flat [some ⟨120, 80, 60⟩, none]).flatten)) ∧
      s.pulse_max = pyMax (nonzeroValues (realValues Measurement.pulse
        (Dataset.flat [some ⟨120, 80, 60⟩, none]).flatten)) ∧
      s.pulse_avg = pyAvg (nonzeroValues (realValues Measurement.pulse
        (Dataset.flat [some ⟨120, 80, 60⟩, none]).flatten)) :=
  statistic_mixed_dataset_alignment_and_stats (Dataset.flat [some ⟨120, 80, 60⟩, none])
    ⟨⟨120, 80, 60⟩, by decide⟩ (by decide)

/-- C5 (amended: the average is the *floor* division (toward negative
infinity, Python 2 `/` on ints) of the sum of the nonzero non-absent values
of the field by their count; the original claim's truncation-toward-zero and
its inclusion of zero values both fail, see the counterexample): whenever a
field has at least one nonzero non-absent value, the aggregator's avg equals
`fdiv (sum of those values) (their count)`. -/
theorem statistic_avg_floor_division_of_truthy (d : Dataset) (hne : d.toPyList ≠ []) :
    ∃ s, Statistic.construct d.toPyList = .ok s ∧
      (nonzeroValues (realValues Measurement.sys d.flatten) ≠ [] →
        s.sys_avg = some (Int.fdiv (nonzeroValues (realValues Measurement.sys d.flatten)).sum
          (nonzeroValues (realValues Measurement.sys d.flatten)).length)) ∧
      (nonzeroValues (realValues Measurement.dia d.flatten) ≠ [] →
        s.dia_avg = some (Int.fdiv (nonzeroValues (realValues Measurement.dia d.flatten)).sum
          (nonzeroValues (realValues Measurement.dia d.flatten)).length)) ∧
      (nonzeroValues (realValues Measurement.pulse d.flatten) ≠ [] →
        s.pulse_avg = some (Int.fdiv (nonzeroValues (realValues Measurement.pulse d.flatten)).sum
          (nonzeroValues (realValues Measurement.pulse d.flatten)).length)) := by
  refine ⟨_, construct_toPyList d hne, ?_, ?_, ?_⟩ <;>
    · intro h
      simp only [pyTruthy_map]
      exact pyAvg_of_ne_nil _ h

/-- C5 counterexample: for the dataset `[Measurement(-1,1,1), Measurement(-2,1,1)]`
the non-absent `sys` values are `[-1, -2]`; truncating their mean toward zero
gives `-1`, but the aggregator computes `sys_avg = -2` (floor division). -/
theorem statistic_avg_floor_not_truncation :
    realValues Measurement.sys
      (Dataset.flat [some ⟨-1, 1, 1⟩, some ⟨-2, 1, 1⟩]).flatten = [-1, -2] ∧
    Int.tdiv ((-1) + (-2)) 2 = -1 ∧
    Except.map Stats.sys_avg (Statistic.construct
      (Dataset.flat [some ⟨-1, 1, 1⟩, some ⟨-2, 1, 1⟩]).toPyList) = .ok (some (-2)) ∧
    ((-2 : Int) ≠ -1) :=
  ⟨rfl, by decide, rfl, by decide⟩

/-- C5 witness: the flat dataset `[Measurement(121, 80, 65), Measurement(124, 80, 65)]`
(sys average `fdiv 245 2 = 122`). -/
theorem statistic_avg_floor_witness :
    ∃ s, Statistic.construct
        (Dataset.flat [some ⟨121, 80, 65⟩, some ⟨124, 80, 65⟩]).toPyList = .ok s ∧
      (nonzeroValues (realValues Measurement.sys
          (Dataset.flat [some ⟨121, 80, 65⟩, some ⟨124, 80, 65⟩]).flatten) ≠ [] →
        s.sys_avg = some (Int.fdiv (nonzeroValues (realValues Measurement.sys
            (Dataset.flat [some ⟨121, 80, 65⟩, some ⟨124, 80, 65⟩]).flatten)).sum
          (nonzeroValues (realValues Measurement.sys
            (Dataset.flat [some ⟨121, 80, 65⟩, some ⟨124, 80, 65⟩]).flatten)).length)) ∧
      (nonzeroValues (realValues Measurement.dia
          (Dataset.flat [some ⟨121, 80, 65⟩, some ⟨124, 80, 65⟩]).flatten) ≠ [] →
        s.dia_avg = some (Int.fdiv (nonzeroValues (realValues Measurement.dia
            (Dataset.flat [some ⟨121, 80, 65⟩, some ⟨124, 80, 65⟩]).flatten)).sum
          (nonzeroValues (realValues Measurement.dia
            (Dataset.flat [some ⟨121, 80, 65⟩, some ⟨124, 80, 65⟩]).flatten)).length)) ∧
      (nonzeroValues (realValues Measurement.pulse
          (Dataset.flat [some ⟨121, 80, 65⟩, some ⟨124, 80, 65⟩]).flatten) ≠ [] →
        s.pulse_avg = some (Int.fdiv (nonzeroValues (realValues Measurement.pulse
            (Dataset.flat [some ⟨121, 80, 65⟩, some ⟨124, 80, 65⟩]).flatten)).sum
          (nonzeroValues (realValues Measurement.pulse
            (Dataset.flat [some ⟨121, 80, 65⟩, some ⟨124, 80, 65⟩]).flatten)).length)) :=
  statistic_avg_floor_division_of_truthy
    (Dataset.flat [some ⟨121, 80, 65⟩, some ⟨124, 80, 65⟩]) (by decide)

/-- C6 (amended: restricted to nonempty skip-marker strings that do not split
into exactly three sub-fields under the field separator — a marker that does
split into three sub-fields is attempted as a measurement instead, see the
counterexample): under lenient or silent mode, a token that trims to such a
skip marker is mapped to a placeholder; no error (in particular no
wrong-sub-field-count error) is raised for it. -/
theorem skip_marker_token_becomes_placeholder (skip tok line : String) (check : Check)
    (entries : Nat) (tokens : List String) (i : Nat)
    (hc : check ≠ Check.strict)
    (hskip : skip ≠ "")
    (hshape : (pySplit "/" skip).length ≠ 3)
    (hget : tokens.get? i = some tok)
    (htok : pyStrip tok = skip) :
    parseSlot skip "/" line check entries tokens i = .ok (some none) := by
  have hmk : mkMeasurement (pySplit "/" (pyStrip tok)) = .error ArgExc.typeError := by
    rw [htok]
    exact mkMeasurement_typeError _ hshape
  unfold parseSlot
  rw [hget]
  simp only [hmk]
  rw [if_pos ⟨hc, Or.inl ⟨hskip, htok⟩⟩]

/-- C6 counterexample: with the skip marker configured as `"a/b/c"` (which
splits into three sub-fields), the token `"a/b/c"` is not mapped to a
placeholder in lenient mode; instead the parser raises the
cannot-convert-to-int error. -/
theorem skip_marker_with_three_subfields_raises :
    parse_plaintext ["a/b/c"] false false 0 "a/b/c" "/" "," Check.lenient =
      .error (BpdiagError.cantConvert ["a", "b", "c"]) := rfl

/-- C6 witness: the default skip marker `"-"`, appearing as the second token
(with surrounding whitespace) in lenient mode. -/
theorem skip_marker_token_witness :
    parseSlot "-" "/" "x" Check.lenient 0 ["136/83/65", " - "] 1 = .ok (some none) :=
  skip_marker_token_becomes_placeholder "-" " - " "x" Check.lenient 0 ["136/83/65", " - "] 1
    (by decide) (by decide) (by decide) rfl rfl

/-- C7: under lenient or silent mode (with the default field separator), a
token that trims to the empty string and sits at the *last* index of its
line's token list (the artifact of a trailing delimiter) is mapped to a
placeholder exactly like a skip marker; an *interior* empty token is not
special-cased and falls through to the wrong-sub-field-count handling —
lenient mode raises the shape error, silent mode suppresses it (dropping the
slot). -/
theorem trailing_empty_token_vs_interior_empty_token (skip line : String) (check : Check)
    (entries : Nat) (tokens : List String) (i : Nat) (tok : String)
    (hc : check ≠ Check.strict)
    (hget : tokens.get? i = some tok)
    (hemp : pyStrip tok = "") :
    (i = tokens.length - 1 →
      parseSlot skip "/" line check entries tokens i = .ok (some none)) ∧
    (i < tokens.length - 1 →
      (check = Check.lenient →
        parseSlot skip "/" line check entries tokens i =
          .error (BpdiagError.wrongTokenShape 1 "")) ∧
      (check = Check.silent →
        parseSlot skip "/" line check entries tokens i = .ok none)) := by
  have hmk : mkMeasurement (pySplit "/" (pyStrip tok)) = .error ArgExc.typeError := by
    rw [hemp]
    rfl
  constructor
  · intro hlast
    unfold parseSlot
    rw [hget]
    simp only [hmk]
    rw [if_pos ⟨hc, Or.inr ⟨by rw [hemp]; rfl, hlast.symm⟩⟩]
  · intro hmid
    have hcond : ¬(check ≠ Check.strict ∧
        ((skip ≠ "" ∧ pyStrip tok = skip) ∨
          ((pyStrip tok).length = 0 ∧ tokens.length - 1 = i))) := by
      rintro ⟨-, h | h⟩
      · exact h.1 (by rw [hemp] at h; exact h.2.symm)
      · omega
    constructor
    · rintro rfl
      unfold parseSlot
      rw [hget]
      simp only [hmk]
      rw [if_neg hcond, if_neg (by decide)]
      rw [hemp]
      rfl
    · rintro rfl
      unfold parseSlot
      rw [hget]
      simp only [hmk]
      rw [if_neg hcond, if_pos trivial]

/-- C7 witness: the trailing whitespace-only token of `["1/2/3", "  "]`
becomes a placeholder; the interior empty token of `["", "1/2/3"]` raises the
shape error in lenient mode and is dropped in silent mode. -/
theorem trailing_empty_token_witness :
    parseSlot "-" "/" "x" Check.lenient 0 ["1/2/3", "  "] 1 = .ok (some none) ∧
    parseSlot "-" "/" "x" Check.lenient 0 ["", "1/2/3"] 0 =
      .error (BpdiagError.wrongTokenShape 1 "") ∧
    parseSlot "-" "/" "x" Check.silent 0 ["", "1/2/3"] 0 = .ok none :=
  ⟨(trailing_empty_token_vs_interior_empty_token "-" "x" Check.lenient 0 ["1/2/3", "  "] 1 "  "
      (by decide) rfl rfl).1 (by decide),
   ((trailing_empty_token_vs_interior_empty_token "-" "x" Check.lenient 0 ["", "1/2/3"] 0 ""
      (by decide) rfl rfl).2 (by decide)).1 rfl,
   ((trailing_empty_token_vs_interior_empty_token "-" "x" Check.silent 0 ["", "1/2/3"] 0 ""
      (by decide) rfl rfl).2 (by decide)).2 rfl⟩

/-- C8 (amended: restricted to input whose concatenation is not valid JSON —
for a syntactically valid document containing an element of the wrong shape
the function instead lets a `TypeError` escape uncaught in every mode, see
the counterexample): when decoding the joined input fails, strict and lenient
modes raise the parse error and silent mode returns the empty list. -/
theorem json_invalid_document_error_modes (lines : List String) (as_obj : Bool)
    (check : Check) (hbad : loads (String.join lines) = none) :
    ((check = Check.strict ∨ check = Check.lenient) →
      parse_json lines as_obj check = .error (PyFailure.bpdiag BpdiagError.jsonDecode)) ∧
    (check = Check.silent → parse_json lines as_obj check = .ok []) := by
  unfold parse_json
  rw [hbad]
  constructor
  · rintro (rfl | rfl) <;> rfl
  · rintro rfl
    rfl

/-- C8 counterexample: `"[[1, 2]]"` is valid JSON whose only element is
malformed (two values instead of three); in silent mode the parser does not
return the empty list — an uncaught `TypeError` escapes instead. -/
theorem json_wrong_arity_element_silent_raises :
    parse_json ["[[1, 2]]"] false Check.silent = .error PyFailure.typeError ∧
    (Except.error PyFailure.typeError ≠ (.ok [] : Except PyFailure (List Measurement))) :=
  ⟨rfl, by decide⟩

/-- C8 witness (scenario C): the input `["asd"]` is not valid JSON; strict
and lenient modes raise the parse error and silent mode returns `[]`. -/
theorem json_invalid_document_witness :
    loads (String.join ["asd"]) = none ∧
    parse_json ["asd"] false Check.strict = .error (PyFailure.bpdiag BpdiagError.jsonDecode) ∧
    parse_json ["asd"] false Check.lenient = .error (PyFailure.bpdiag BpdiagError.jsonDecode) ∧
    parse_json ["asd"] false Check.silent = .ok [] :=
  ⟨rfl,
   (json_invalid_document_error_modes ["asd"] false Check.strict rfl).1 (Or.inl rfl),
   (json_invalid_document_error_modes ["asd"] false Check.lenient rfl).1 (Or.inr rfl),
   (json_invalid_document_error_modes ["asd"] false Check.silent rfl).2 rfl⟩

/-- C9: `parse_csv` never maps records to measurements at all — evaluating
`Measurement(**csv.DictReader(...))` applies `**` to the reader object, which
is not a mapping, so every invocation (here: the records `["120,80,60",
"130,85,70"]` with field names `sys, dia, pulse`) raises `TypeError` instead
of producing one `Measurement` per record. -/
theorem parse_csv_raises_typeerror_on_records :
    parse_csv ["120,80,60", "130,85,70"] ["sys", "dia", "pulse"] "," =
      .error PyFailure.typeError := rfl

/-- C10: constructing a `Statistic` from the empty dataset fails with
`IndexError` (the `is_list` property indexes `self.data[0]`), while every
nonempty dataset (flat or aligned) is handled without error. -/
theorem statistic_empty_raises_nonempty_ok :
    Statistic.construct (Dataset.flat []).toPyList = .error RuntimeExc.indexError ∧
    ∀ d : Dataset, d.toPyList ≠ [] → ∃ s, Statistic.construct d.toPyList = .ok s :=
  ⟨rfl, fun d h => ⟨_, construct_toPyList d h⟩⟩

/-- C10 witness: the nonempty flat dataset `[Measurement(120, 80, 60)]`. -/
theorem statistic_nonempty_ok_witness :
    ∃ s, Statistic.construct (Dataset.flat [some ⟨120, 80, 60⟩]).toPyList = .ok s :=
  statistic_empty_raises_nonempty_ok.2 (Dataset.flat [some ⟨120, 80, 60⟩]) (by decide)
